import Mathlib

/-!
Verification of the session-synchronization core of the repository:
the `AuthProvider` React component (src/unnamed/part_000), its helpers
`getUser` / `onAuthStateChange` (src/lib/supabase/auth.ts), and the
`analytics` sink (src/lib/analytics, inlined in the same source file).

The component holds two pieces of state (`user : User | null`,
`isLoading : boolean`), seeds them from a one-shot `getUser()` fetch and a
push subscription `onAuthStateChange`, and forwards identity changes to
`analytics.identify` / `analytics.reset`.  Strings model JavaScript
strings; `Option String` models a possibly-`undefined` string, with
`none` for `undefined` and `some ""` for the (falsy) empty string.
-/

/-- The slice of a Supabase `user_metadata` record read by the component:
`user_metadata?.full_name` and `user_metadata?.name`. -/
structure UserMetadata where
  full_name : Option String
  name : Option String
deriving DecidableEq, Repr

/-- The slice of a Supabase `User` read by the component: `user.id`,
`user.email`, `user.user_metadata` (itself possibly `undefined`). -/
structure User where
  id : String
  email : Option String
  user_metadata : Option UserMetadata
deriving DecidableEq, Repr

/-- JavaScript truthiness of a possibly-`undefined` string: `undefined`
and the empty string are falsy. -/
def jsTruthy : Option String → Bool
  | none => false
  | some s => s != ""

/-- JavaScript `a || b` on possibly-`undefined` strings. -/
def jsOr (a b : Option String) : Option String :=
  if jsTruthy a then a else b

/-- The traits object passed to `analytics.identify`:
`{ email: user.email, name: user.user_metadata?.full_name || user.user_metadata?.name }`. -/
structure Traits where
  email : Option String
  name : Option String
deriving DecidableEq, Repr

/-- Traits as built at lines 31-34 and 42-45 of the component. -/
def identifyTraits (u : User) : Traits :=
  { email := u.email
    name := jsOr (u.user_metadata.bind UserMetadata.full_name)
                 (u.user_metadata.bind UserMetadata.name) }

/-- One call made to the analytics sink: `analytics.identify(userId, traits)`
or `analytics.reset()`. -/
inductive AnalyticsCall where
  | identify (userId : String) (traits : Traits)
  | reset
deriving DecidableEq, Repr

/-- The component state and the reader-facing context value
(`interface AuthContextType { user: User | null; isLoading: boolean }`). -/
structure AuthContextType where
  user : Option User
  isLoading : Bool
deriving DecidableEq, Repr

/-- The initial component state: `useState<User | null>(null)`,
`useState(true)`. -/
def initialState : AuthContextType :=
  { user := none, isLoading := true }

/-- A completion of one of the two update channels: the one-shot fetch
resolving (`getUser().then(...)`, carrying `User | null`) or a push
notification (`onAuthStateChange` callback, carrying `User | null`). -/
inductive Completion where
  | fetch (user : Option User)
  | push (user : Option User)
deriving DecidableEq, Repr

/-- One completion applied to the component state, returning the new state
and the analytics calls made, translated from the two callbacks:

fetch callback (lines 27-36): `setUser(user); setIsLoading(false);
if (user) analytics.identify(...)` — note there is no `else` branch;
a `null` fetch result makes no analytics call.

push callback (lines 38-49): `setUser(user); setIsLoading(false);
if (user) analytics.identify(...) else analytics.reset()`. -/
def applyCompletion (_s : AuthContextType) (c : Completion) :
    AuthContextType × List AnalyticsCall :=
  match c with
  | .fetch u =>
      ({ user := u, isLoading := false },
       match u with
       | some usr => [.identify usr.id (identifyTraits usr)]
       | none => [])
  | .push u =>
      ({ user := u, isLoading := false },
       match u with
       | some usr => [.identify usr.id (identifyTraits usr)]
       | none => [.reset])

/-- The user carried by a completion. -/
def Completion.user : Completion → Option User
  | .fetch u => u
  | .push u => u

/-- A sequence of completions applied in delivery order (the single-threaded
event loop delivers them one at a time), collecting all analytics calls. -/
def run (s : AuthContextType) : List Completion → AuthContextType × List AnalyticsCall
  | [] => (s, [])
  | c :: cs =>
      ((run (applyCompletion s c).1 cs).1,
       (applyCompletion s c).2 ++ (run (applyCompletion s c).1 cs).2)

/-- A mounted provider instance: its state, whether the effect cleanup has
run (`tornDown`), and the analytics calls made so far. -/
structure Session where
  state : AuthContextType
  tornDown : Bool
  calls : List AnalyticsCall
deriving DecidableEq, Repr

/-- A freshly mounted provider. -/
def initialSession : Session :=
  { state := initialState, tornDown := false, calls := [] }

/-- Externally observable events over a provider's lifetime: the fetch
promise settling, a push notification, and the effect cleanup running. -/
inductive Event where
  | fetchComplete (user : Option User)
  | pushNotify (user : Option User)
  | teardown
deriving DecidableEq, Repr

/-- One event applied to a session.

teardown: the effect cleanup is `return unsubscribe` (line 51), which only
calls `subscription.unsubscribe()`; it sets no flag that other callbacks
consult.

pushNotify: after `unsubscribe()` the provider no longer invokes the
subscription callback, so a torn-down session ignores push events.

fetchComplete: the `.then` continuation registered at line 27 is not
cancelled by the cleanup and contains no torn-down guard, so it runs in
full even after teardown. -/
def stepEvent (sess : Session) (e : Event) : Session :=
  match e with
  | .teardown => { sess with tornDown := true }
  | .pushNotify u =>
      if sess.tornDown then sess
      else
        { sess with state := (applyCompletion sess.state (.push u)).1,
                    calls := sess.calls ++ (applyCompletion sess.state (.push u)).2 }
  | .fetchComplete u =>
      { sess with state := (applyCompletion sess.state (.fetch u)).1,
                  calls := sess.calls ++ (applyCompletion sess.state (.fetch u)).2 }

/-- A sequence of events applied in order. -/
def runEvents (sess : Session) : List Event → Session
  | [] => sess
  | e :: es => runEvents (stepEvent sess e) es

/-- How the `getUser()` promise can settle: fulfilled with `User | null`,
or rejected. -/
inductive FetchOutcome where
  | resolved (user : Option User)
  | rejected
deriving DecidableEq, Repr

/-- The fetch promise settling against a session.  The source registers
only a fulfillment handler — `getUser().then((user) => ...)` with no
`.catch` and no second argument — so a rejection runs no handler and
leaves state and sink untouched. -/
def settleFetch (sess : Session) : FetchOutcome → Session
  | .resolved u => stepEvent sess (.fetchComplete u)
  | .rejected => sess

/-- The shape of Supabase's `auth.getUser()` result:
`{ data: { user }, error }`. -/
structure GetUserData where
  user : Option User
deriving DecidableEq, Repr

/-- Supabase `auth.getUser()` result with its discarded `error` field. -/
structure GetUserResult where
  data : GetUserData
  error : Option String
deriving DecidableEq, Repr

/-- `getUser` (src/lib/supabase/auth.ts lines 39-43): destructures
`{ data: { user } }` and returns `user`, discarding `error`; a provider
error surfaced in the `error` field therefore yields `null`, not a
rejection. -/
def getUser (r : GetUserResult) : Option User :=
  r.data.user

/-- The observable outcome of running the effect body (lines 26-52):
whether `getUser()` was invoked with its `.then` continuation registered,
whether the cleanup (`unsubscribe`) was registered with React, and whether
an exception escaped the effect body. -/
structure EffectOutcome where
  fetchIssued : Bool
  cleanupRegistered : Bool
  uncaughtException : Bool
deriving DecidableEq, Repr

/-- The effect body as straight-line code, parameterized by whether
`onAuthStateChange` throws when establishing the subscription.  Line 27
(`getUser().then(...)`) runs first unconditionally; line 38
(`onAuthStateChange(...)`) has no `try`/`catch` around it, so a throw
there escapes the effect body, and the cleanup is never returned. -/
def runEffectBody (subscribeThrows : Bool) : EffectOutcome :=
  { fetchIssued := true
    cleanupRegistered := !subscribeThrows
    uncaughtException := subscribeThrows }

/-- The default value given to `createContext` (lines 13-16):
`{ user: null, isLoading: true }`. -/
def defaultAuthContextValue : AuthContextType :=
  { user := none, isLoading := true }

/-- `useAuth` (lines 18-20) returns `useContext(AuthContext)`: the
enclosing provider's value when one exists, else the `createContext`
default. -/
def useAuth (provided : Option AuthContextType) : AuthContextType :=
  provided.getD defaultAuthContextValue

/-- A concrete sample identity used in concrete scenarios. -/
def sampleUser : User :=
  { id := "u1", email := some "u1@example.com", user_metadata := none }

/-- The name trait as the claim describes it: `user_metadata.full_name`
when present and truthy, otherwise `user_metadata.name`. -/
def claimedNameTrait (u : User) : Option String :=
  match u.user_metadata.bind UserMetadata.full_name with
  | some fn => if fn = "" then u.user_metadata.bind UserMetadata.name else some fn
  | none => u.user_metadata.bind UserMetadata.name

/-- Claim C1, counterexample: two consecutive push completions both
carrying `Present(sampleUser)` invoke the sink twice — once per completion,
not once for the pair as the claim states. -/
theorem push_same_identity_twice_dispatches_twice :
    (run initialState
      [Completion.push (some sampleUser), Completion.push (some sampleUser)]).2 =
      [AnalyticsCall.identify sampleUser.id (identifyTraits sampleUser),
       AnalyticsCall.identify sampleUser.id (identifyTraits sampleUser)] ∧
    (run initialState
      [Completion.push (some sampleUser), Completion.push (some sampleUser)]).2.length ≠ 1 := by
  exact ⟨rfl, by decide⟩

/-- Claim C1 (amended): the sink is invoked once per completion according
to the completion's payload, not only on has-identity transitions: every
completion carrying an identity dispatches `identify`, every push
completion carrying none dispatches `reset`, and a fetch completion
carrying none dispatches nothing — regardless of the prior state. -/
theorem dispatch_is_per_completion (s : AuthContextType) (u : User) :
    (applyCompletion s (.push (some u))).2 = [.identify u.id (identifyTraits u)] ∧
    (applyCompletion s (.fetch (some u))).2 = [.identify u.id (identifyTraits u)] ∧
    (applyCompletion s (.push none)).2 = [.reset] ∧
    (applyCompletion s (.fetch none)).2 = [] :=
  ⟨rfl, rfl, rfl, rfl⟩

/-- Claim C2, counterexample: the fetch resolving `null` with no push ever
firing leaves the final state Absent and resolved, but makes no sink call
at all — `clear()` is called zero times, not once, and this very first
completion does not dispatch. -/
theorem fetch_null_alone_makes_no_sink_call :
    run initialState [Completion.fetch none] =
      ({ user := none, isLoading := false }, []) ∧
    (run initialState [Completion.fetch none]).2.length ≠ 1 :=
  ⟨rfl, by decide⟩

/-- Claim C2 (amended): if the one-shot fetch completes with no identity
and no push notification ever fires, the final state is Absent with
resolved = true and the sink is never called — the fetch callback has no
`else` branch, so a no-identity fetch completion dispatches nothing. -/
theorem fetch_null_resolves_absent_without_dispatch :
    (run initialState [Completion.fetch none]).1.user = none ∧
    (run initialState [Completion.fetch none]).1.isLoading = false ∧
    (run initialState [Completion.fetch none]).2 = [] :=
  ⟨rfl, rfl, rfl⟩

/-- Claim C3, counterexample: push `Present(sampleUser)` before the fetch,
then the fetch resolves `null` — the final state is Absent, but the sink is
called exactly once (`associate(u1)`), not twice: the fetch path never
dispatches `clear()`. -/
theorem push_then_fetch_null_single_dispatch :
    (run initialState
      [Completion.push (some sampleUser), Completion.fetch none]).2 =
      [AnalyticsCall.identify sampleUser.id (identifyTraits sampleUser)] ∧
    (run initialState
      [Completion.push (some sampleUser), Completion.fetch none]).2.length ≠ 2 :=
  ⟨rfl, by decide⟩

/-- Claim C3 (amended): the merge rule is last-writer-wins — every
completion unconditionally overwrites the current value and marks resolved
true; if a push delivers `Present(sampleUser)` before the fetch resolves
and the fetch then resolves `null`, the final state is Absent with the
sink called exactly once: `associate(u1)` (no `clear()` from the fetch
path). -/
theorem merge_last_writer_wins (s : AuthContextType) (c : Completion) :
    (applyCompletion s c).1 = { user := c.user, isLoading := false } ∧
    (run initialState
      [Completion.push (some sampleUser), Completion.fetch none]).1 =
      { user := none, isLoading := false } ∧
    (run initialState
      [Completion.push (some sampleUser), Completion.fetch none]).2 =
      [AnalyticsCall.identify sampleUser.id (identifyTraits sampleUser)] := by
  refine ⟨?_, rfl, rfl⟩
  cases c <;> rfl

/-- Claim C4, counterexample: a torn-down session receiving a late fetch
completion carrying `sampleUser` dispatches `identify` to the sink — the
`.then` continuation has no teardown guard, so the claim that no sink call
occurs after teardown is false. -/
theorem late_fetch_after_teardown_dispatches :
    (runEvents initialSession
      [Event.teardown, Event.fetchComplete (some sampleUser)]).calls =
      [AnalyticsCall.identify sampleUser.id (identifyTraits sampleUser)] ∧
    (runEvents initialSession
      [Event.teardown, Event.fetchComplete (some sampleUser)]).calls ≠ [] :=
  ⟨rfl, by decide⟩

/-- Claim C4 (amended): after teardown, push notifications no longer reach
the Store (the subscription is released), but a late-arriving one-shot
fetch completion is not discarded: its callback runs, overwriting the
state and dispatching `identify` when it carries an identity. -/
theorem teardown_stops_push_but_not_fetch (s : AuthContextType)
    (cs : List AnalyticsCall) (u : Option User) (usr : User) :
    stepEvent { state := s, tornDown := true, calls := cs } (.pushNotify u) =
      { state := s, tornDown := true, calls := cs } ∧
    stepEvent { state := s, tornDown := true, calls := cs } (.fetchComplete (some usr)) =
      { state := { user := some usr, isLoading := false }, tornDown := true,
        calls := cs ++ [.identify usr.id (identifyTraits usr)] } := by
  exact ⟨rfl, rfl⟩

/-- Claim C5, counterexample: if the fetch promise rejects and no push ever
fires, the Store stays stuck in Unknown — `isLoading` remains true, the
user remains null, and no sink call is made; the rejection is not treated
as resolving to Absent (the source registers no rejection handler). -/
theorem fetch_rejection_leaves_unknown :
    (settleFetch initialSession FetchOutcome.rejected).state.isLoading = true ∧
    (settleFetch initialSession FetchOutcome.rejected).state.user = none ∧
    (settleFetch initialSession FetchOutcome.rejected).calls = [] :=
  ⟨rfl, rfl, rfl⟩

/-- Claim C5 (amended): a rejected fetch promise applies no completion at
all (there is no `.catch`), leaving the Store unresolved; what prevents a
stuck Unknown in normal operation is that `getUser` discards the result's
`error` field and returns the (then null) user, and a fetch that resolves
— with or without an identity — does mark the Store resolved. -/
theorem fetch_rejection_unhandled_but_resolution_resolves (sess : Session)
    (r : GetUserResult) (u : Option User) :
    settleFetch sess FetchOutcome.rejected = sess ∧
    getUser r = r.data.user ∧
    (settleFetch initialSession (FetchOutcome.resolved u)).state.isLoading = false := by
  refine ⟨rfl, rfl, ?_⟩
  cases u <;> rfl

/-- Claim C6: after the first completion the resolved flag is true
(`isLoading = false`) and remains true under any further sequence of
completions — every completion sets `isLoading` to false and nothing ever
sets it back to true. -/
theorem resolved_after_first_completion (s : AuthContextType) (c : Completion)
    (cs : List Completion) :
    ((run (applyCompletion s c).1 cs).1).isLoading = false := by
  induction cs generalizing s c with
  | nil => cases c <;> rfl
  | cons d ds ih => exact ih (applyCompletion s c).1 d

/-- Claim C7, counterexample: when establishing the push subscription
throws, the exception escapes the effect body uncaught (there is no
`try`/`catch`) and the cleanup is never registered — the Store does not
handle this as a non-fatal degraded mode. -/
theorem subscribe_throw_escapes_effect :
    (runEffectBody true).uncaughtException = true ∧
    (runEffectBody true).cleanupRegistered = false :=
  ⟨rfl, rfl⟩

/-- Claim C7 (amended): if establishing the push subscription throws, the
one-shot fetch — already issued with its continuation registered before
the subscription call — still resolves and drives the state; but the
exception is not caught anywhere in the component: it propagates out of
the effect body. -/
theorem fetch_drives_state_when_subscribe_throws (u : Option User) :
    (runEffectBody true).fetchIssued = true ∧
    (runEffectBody true).uncaughtException = true ∧
    (settleFetch initialSession (FetchOutcome.resolved u)).state.user = u ∧
    (settleFetch initialSession (FetchOutcome.resolved u)).state.isLoading = false := by
  refine ⟨rfl, rfl, ?_, ?_⟩ <;> cases u <;> rfl

/-- Claim C8: every completion carrying an identity forwards to
`identify` exactly the traits the claim describes — email is the
identity's email, and name is `user_metadata.full_name` when present and
truthy, otherwise `user_metadata.name`. -/
theorem traits_forwarded_as_claimed (s : AuthContextType) (u : User) :
    identifyTraits u = { email := u.email, name := claimedNameTrait u } ∧
    (applyCompletion s (.fetch (some u))).2 = [.identify u.id (identifyTraits u)] ∧
    (applyCompletion s (.push (some u))).2 = [.identify u.id (identifyTraits u)] := by
  refine ⟨?_, rfl, rfl⟩
  cases hA : u.user_metadata.bind UserMetadata.full_name with
  | none => simp [identifyTraits, claimedNameTrait, jsOr, jsTruthy, hA]
  | some fn =>
      by_cases hfn : fn = ""
      · subst hfn
        simp [identifyTraits, claimedNameTrait, jsOr, jsTruthy, hA]
      · simp [identifyTraits, claimedNameTrait, jsOr, jsTruthy, hA, hfn]

/-- Claim C9: every push completion carrying no identity dispatches
`reset` (the sink's clear), unconditionally on the prior state; in
particular two consecutive null push completions produce two `reset`
calls. -/
theorem null_push_always_clears (s : AuthContextType) :
    (applyCompletion s (.push none)).2 = [AnalyticsCall.reset] ∧
    (run initialState [Completion.push none, Completion.push none]).2 =
      [AnalyticsCall.reset, AnalyticsCall.reset] :=
  ⟨rfl, rfl⟩

/-- Claim C10: a reader calling `useAuth` outside any provider observes the
`createContext` default: user = null and isLoading = true (resolved is
false). -/
theorem useAuth_outside_provider_defaults :
    (useAuth none).user = none ∧ (useAuth none).isLoading = true :=
  ⟨rfl, rfl⟩
